import Mathlib

/-!
Shallow embedding of `onix/deploy/onix-installer/backend/config/tf_config_generator.py`.

The module's single operation `generate_config` renders a Jinja base template
against a context derived from the deployment request, reads a size-specific
override file, concatenates the two pieces with a fixed delimiter, and writes
the result to one fixed output path.  The external collaborators
(`render_jinja_template`, `read_file_content`, `write_file_content`, the
`core.constants` directories) are modelled as an explicit environment `Env`;
the function returns, besides the propagated-or-ok result, the trace of read
paths and attempted writes, and the request object as it stands at return.
-/

namespace TfConfigGenerator

/-- Association-list lookup modelling a Python `dict` (keys unique, first
match wins). -/
def dictLookup {α : Type} : List (String × α) → String → Option α
  | [], _ => none
  | (k', v) :: rest, k => if k' = k then some v else dictLookup rest k

/-- Python `dict.get(key, default)`. -/
def dictGetD {α : Type} (d : List (String × α)) (k : String) (dflt : α) : α :=
  (dictLookup d k).getD dflt

/-- The deployment request (`core.models.InfraDeploymentRequest`) as the
generator reads it: `type_value` stands for `deploy_infra_req.type.value`,
the size-tier string of the request's enum field, and `components` models
the `str -> bool` dict. -/
structure InfraDeploymentRequest where
  project_id : String
  region : String
  app_name : String
  type_value : String
  components : List (String × Bool)
deriving DecidableEq, Repr

/-- Modelled from the spec: `core.constants.TEMPLATE_DIRECTORY` is not under
src/; the spec only fixes that templates live under a template root
directory, so its concrete value is irrelevant to every claim. -/
def TEMPLATE_DIRECTORY : String := "templates"

/-- Modelled from the spec: `core.constants.TERRAFORM_DIRECTORY` is not under
src/; the spec fixes only that the output path is
`<terraform-directory>/generated-terraform.tfvars`. -/
def TERRAFORM_DIRECTORY : String := "terraform"

/-- The size-tier table of `tf_config_generator.py` (lines 24-28). -/
def DEPLOYMENT_CONFIGS : List (String × String) :=
  [("small", "small_vars.tfvars"),
   ("medium", "medium_vars.tfvars"),
   ("large", "large_vars.tfvars")]

/-- Fixed base-template filename (line 31). -/
def MAIN_CONFIG_TEMPLATE_NAME : String := "main_tfvars.tfvars.j2"

/-- Fixed output filename (line 32). -/
def OUTPUT_TFVARS_FILENAME : String := "generated-terraform.tfvars"

/-- `os.path.join` for the two-component joins the generator performs. -/
def osPathJoin (a b : String) : String := a ++ "/" ++ b

/-- `template_source_dir = os.path.join(TEMPLATE_DIRECTORY, "tf_configs")`. -/
def template_source_dir : String := osPathJoin TEMPLATE_DIRECTORY "tf_configs"

/-- `output_merged_tfvars_path = os.path.join(TERRAFORM_DIRECTORY, OUTPUT_TFVARS_FILENAME)`. -/
def output_merged_tfvars_path : String :=
  osPathJoin TERRAFORM_DIRECTORY OUTPUT_TFVARS_FILENAME

/-- The Jinja2 context dict built at lines 48-56; field names keep the
Python keys. -/
structure JinjaContext where
  project_id : String
  region : String
  suffix : String
  provision_adapter_infra : Bool
  provision_gateway_infra : Bool
  provision_registry_infra : Bool
deriving DecidableEq, Repr

/-- Lines 48-56: the context handed to `render_jinja_template`. -/
def jinja_context (deploy_infra_req : InfraDeploymentRequest) : JinjaContext :=
  { project_id := deploy_infra_req.project_id
    region := deploy_infra_req.region
    suffix := deploy_infra_req.app_name
    provision_adapter_infra :=
      dictGetD deploy_infra_req.components "bap" false
        || dictGetD deploy_infra_req.components "bpp" false
    provision_gateway_infra := dictGetD deploy_infra_req.components "gateway" false
    provision_registry_infra := dictGetD deploy_infra_req.components "registry" false }

/-- Python `str.lower()` as line 72 applies it to the tier string: each
character lower-cased (ASCII suffices for the table's keys). -/
def py_lower (s : String) : String := ⟨s.data.map Char.toLower⟩

/-- Lines 72-74: the override filename resolved from the lower-cased tier,
with `DEPLOYMENT_CONFIGS["small"]` as the `dict.get` default; the full read
path is `os.path.join(template_source_dir, size_specific_var_filename)`. -/
def source_size_vars_path (deployment_type : String) : String :=
  osPathJoin template_source_dir
    (dictGetD DEPLOYMENT_CONFIGS deployment_type (dictGetD DEPLOYMENT_CONFIGS "small" ""))

/-- Outcome of `render_jinja_template`: the rendered text, or any raised
exception (carried as an opaque code so that propagation unchanged is
expressible). -/
inductive RenderOutcome where
  | ok (s : String)
  | error (e : Nat)
deriving DecidableEq, Repr

/-- Outcome of `read_file_content`: the text, `FileNotFoundError`, or any
other `IOError` (opaque code). -/
inductive ReadOutcome where
  | content (s : String)
  | fileNotFound
  | ioError (e : Nat)
deriving DecidableEq, Repr

/-- Outcome of `write_file_content`: success or an `IOError` (opaque code). -/
inductive WriteOutcome where
  | ok
  | ioError (e : Nat)
deriving DecidableEq, Repr

/-- The external collaborators of `generate_config`, as one environment:
rendering is a function of template dir, template name and context; reading
and writing are functions of the path (and content). -/
structure Env where
  render : String → String → JinjaContext → RenderOutcome
  readFile : String → ReadOutcome
  writeFile : String → String → WriteOutcome

/-- The exception `generate_config` re-raises, tagged by the step it came
from, carrying the collaborator's code unchanged. -/
inductive GenError where
  | renderError (e : Nat)
  | overrideReadError (e : Nat)
  | writeError (e : Nat)
deriving DecidableEq, Repr

/-- Normal return or raised exception of `generate_config`. -/
inductive GenResult where
  | ok
  | error (e : GenError)
deriving DecidableEq, Repr

/-- Observable outcome of one call: its result, the paths passed to
`read_file_content`, and the `(path, content)` pairs passed to
`write_file_content`, in call order. -/
structure GenOutcome where
  result : GenResult
  reads : List String
  writeAttempts : List (String × String)
deriving DecidableEq, Repr

/-- Line 88: `merged_content = main_config_content + "\n\n# --- Size-Specific Variables ---\n" + size_config_content`. -/
def merged_content (main_config_content size_config_content : String) : String :=
  main_config_content ++ "\n\n# --- Size-Specific Variables ---\n" ++ size_config_content

/-- Lines 88-99: merge the two pieces and attempt the single write,
re-raising a write `IOError`. -/
def writeMerged (env : Env) (svp : String)
    (main_config_content size_config_content : String)
    (deploy_infra_req : InfraDeploymentRequest) :
    GenOutcome × InfraDeploymentRequest :=
  match env.writeFile output_merged_tfvars_path
      (merged_content main_config_content size_config_content) with
  | .ok =>
      ({ result := .ok, reads := [svp],
         writeAttempts := [(output_merged_tfvars_path,
           merged_content main_config_content size_config_content)] },
       deploy_infra_req)
  | .ioError e =>
      ({ result := .error (.writeError e), reads := [svp],
         writeAttempts := [(output_merged_tfvars_path,
           merged_content main_config_content size_config_content)] },
       deploy_infra_req)

/-- Lines 34-101, `generate_config`: render the base template (any failure
re-raised, nothing read or written); read the size-specific override
(`FileNotFoundError` leaves the initial `""`, any other `IOError`
re-raised before the write); merge and write. The second component is the
request object at return. -/
def generate_config (env : Env) (deploy_infra_req : InfraDeploymentRequest) :
    GenOutcome × InfraDeploymentRequest :=
  match env.render template_source_dir MAIN_CONFIG_TEMPLATE_NAME
      (jinja_context deploy_infra_req) with
  | .error e =>
      ({ result := .error (.renderError e), reads := [], writeAttempts := [] },
       deploy_infra_req)
  | .ok main_config_content =>
      match env.readFile
          (source_size_vars_path (py_lower deploy_infra_req.type_value)) with
      | .ioError e =>
          ({ result := .error (.overrideReadError e),
             reads := [source_size_vars_path (py_lower deploy_infra_req.type_value)],
             writeAttempts := [] },
           deploy_infra_req)
      | .fileNotFound =>
          writeMerged env
            (source_size_vars_path (py_lower deploy_infra_req.type_value))
            main_config_content "" deploy_infra_req
      | .content s =>
          writeMerged env
            (source_size_vars_path (py_lower deploy_infra_req.type_value))
            main_config_content s deploy_infra_req

/-- The override text a read outcome yields when it does not abort the call:
the file's text, `""` when the file is absent, nothing on another I/O
fault. -/
def overrideTextOf : ReadOutcome → Option String
  | .content s => some s
  | .fileNotFound => some ""
  | .ioError _ => none

/-! ## Concrete sample inputs used by the witnesses -/

/-- A sample request with a recognised (mixed-case) size tier. -/
def reqSample : InfraDeploymentRequest :=
  { project_id := "p", region := "r", app_name := "a", type_value := "Medium",
    components := [("bap", true)] }

/-- A sample request whose size tier lower-cases to none of the table keys. -/
def reqUnknownTier : InfraDeploymentRequest :=
  { project_id := "p", region := "r", app_name := "a", type_value := "XL",
    components := [("bap", true)] }

/-- An environment in which every collaborator succeeds. -/
def envAllOk : Env :=
  { render := fun _ _ _ => .ok "BASE",
    readFile := fun _ => .content "OVR",
    writeFile := fun _ _ => .ok }

/-- An environment in which the override file is absent. -/
def envNoOverride : Env :=
  { render := fun _ _ _ => .ok "BASE",
    readFile := fun _ => .fileNotFound,
    writeFile := fun _ _ => .ok }

/-- An environment in which the write raises I/O code 7. -/
def envWriteFault : Env :=
  { render := fun _ _ _ => .ok "BASE",
    readFile := fun _ => .content "OVR",
    writeFile := fun _ _ => .ioError 7 }

/-! ## Helper lemmas -/

lemma writeMerged_snd (env : Env) (svp m s : String) (r : InfraDeploymentRequest) :
    (writeMerged env svp m s r).2 = r := by
  unfold writeMerged
  cases env.writeFile output_merged_tfvars_path (merged_content m s) <;> rfl

lemma writeMerged_reads (env : Env) (svp m s : String) (r : InfraDeploymentRequest) :
    (writeMerged env svp m s r).1.reads = [svp] := by
  unfold writeMerged
  cases env.writeFile output_merged_tfvars_path (merged_content m s) <;> rfl

lemma writeMerged_writeAttempts (env : Env) (svp m s : String)
    (r : InfraDeploymentRequest) :
    (writeMerged env svp m s r).1.writeAttempts =
      [(output_merged_tfvars_path, merged_content m s)] := by
  unfold writeMerged
  cases env.writeFile output_merged_tfvars_path (merged_content m s) <;> rfl

lemma writeMerged_result (env : Env) (svp m s : String)
    (r : InfraDeploymentRequest) :
    (writeMerged env svp m s r).1.result =
      match env.writeFile output_merged_tfvars_path (merged_content m s) with
      | .ok => .ok
      | .ioError e => .error (.writeError e) := by
  unfold writeMerged
  cases env.writeFile output_merged_tfvars_path (merged_content m s) <;> rfl

lemma sizeFilename_cases (d : String) :
    dictGetD DEPLOYMENT_CONFIGS d (dictGetD DEPLOYMENT_CONFIGS "small" "") =
      if d = "small" then "small_vars.tfvars"
      else if d = "medium" then "medium_vars.tfvars"
      else if d = "large" then "large_vars.tfvars"
      else "small_vars.tfvars" := by
  by_cases h1 : d = "small"
  · subst h1; rfl
  by_cases h2 : d = "medium"
  · subst h2; rfl
  by_cases h3 : d = "large"
  · subst h3; rfl
  have h1' : ¬ ("small" = d) := fun h => h1 h.symm
  have h2' : ¬ ("medium" = d) := fun h => h2 h.symm
  have h3' : ¬ ("large" = d) := fun h => h3 h.symm
  simp [dictGetD, dictLookup, DEPLOYMENT_CONFIGS, h1, h2, h3, h1', h2', h3']

lemma writeMerged_fst (env : Env) (svp m s : String)
    (r1 r2 : InfraDeploymentRequest) :
    (writeMerged env svp m s r1).1 = (writeMerged env svp m s r2).1 := by
  unfold writeMerged
  cases env.writeFile output_merged_tfvars_path (merged_content m s) <;> rfl

lemma generate_config_fst_congr (env : Env) (r1 r2 : InfraDeploymentRequest)
    (hctx : jinja_context r1 = jinja_context r2)
    (hsvp : source_size_vars_path (py_lower r1.type_value) =
      source_size_vars_path (py_lower r2.type_value)) :
    (generate_config env r1).1 = (generate_config env r2).1 := by
  unfold generate_config
  rw [hctx, hsvp]
  cases env.render template_source_dir MAIN_CONFIG_TEMPLATE_NAME (jinja_context r2) with
  | error e => rfl
  | ok base =>
      cases env.readFile (source_size_vars_path (py_lower r2.type_value)) with
      | ioError e => rfl
      | fileNotFound => exact writeMerged_fst ..
      | content s => exact writeMerged_fst ..

/-! ## Claims -/

/-- C3: the render context handed to the template renderer has
`provision_adapter_infra` true iff `bap` or `bpp` maps to true,
`provision_gateway_infra` and `provision_registry_infra` equal to the
`gateway` and `registry` lookups (defaulting to false), absent component
keys behaving as false, and `project_id`, `region`, `suffix` equal to the
request's `project_id`, `region`, `app_name`. -/
theorem c3_render_context (req : InfraDeploymentRequest) :
    ((jinja_context req).provision_adapter_infra = true ↔
      (dictLookup req.components "bap" = some true ∨
        dictLookup req.components "bpp" = some true))
    ∧ (jinja_context req).provision_gateway_infra =
        dictGetD req.components "gateway" false
    ∧ (jinja_context req).provision_registry_infra =
        dictGetD req.components "registry" false
    ∧ (∀ k, dictLookup req.components k = none →
        dictGetD req.components k false = false)
    ∧ (jinja_context req).project_id = req.project_id
    ∧ (jinja_context req).region = req.region
    ∧ (jinja_context req).suffix = req.app_name := by
  refine ⟨?_, rfl, rfl, ?_, rfl, rfl, rfl⟩
  · show (dictGetD req.components "bap" false
        || dictGetD req.components "bpp" false) = true ↔ _
    unfold dictGetD
    cases h1 : dictLookup req.components "bap" <;>
      cases h2 : dictLookup req.components "bpp" <;>
      simp
  · intro k hk
    simp [dictGetD, hk]

/-- C3 witness: a concrete key absent from a concrete request's components
behaves as false. -/
theorem c3_render_context_witness :
    dictGetD (InfraDeploymentRequest.mk "p" "r" "a" "medium"
      [("bap", true)]).components "gateway" false = false :=
  (c3_render_context
    (InfraDeploymentRequest.mk "p" "r" "a" "medium" [("bap", true)])).2.2.2.1
    "gateway" (by decide)

/-- C4: when rendering the base template raises, `generate_config`
re-raises that very error, attempts no write, and never calls the
override read. -/
theorem c4_render_failure_aborts (env : Env) (req : InfraDeploymentRequest) (e : Nat)
    (he : env.render template_source_dir MAIN_CONFIG_TEMPLATE_NAME
      (jinja_context req) = .error e) :
    (generate_config env req).1 =
      { result := .error (.renderError e), reads := [], writeAttempts := [] } := by
  unfold generate_config
  rw [he]

/-- C4 witness: a concrete environment whose renderer raises code 5. -/
theorem c4_render_failure_aborts_witness :
    (generate_config
      (Env.mk (fun _ _ _ => .error 5) (fun _ => .content "OVR") (fun _ _ => .ok))
      (InfraDeploymentRequest.mk "p" "r" "a" "medium" [("bap", true)])).1 =
      { result := .error (.renderError 5), reads := [], writeAttempts := [] } :=
  c4_render_failure_aborts
    (Env.mk (fun _ _ _ => .error 5) (fun _ => .content "OVR") (fun _ _ => .ok))
    (InfraDeploymentRequest.mk "p" "r" "a" "medium" [("bap", true)]) 5 rfl

/-- C6: when the override read fails with an `IOError` other than
file-not-found, `generate_config` re-raises it and attempts no write. -/
theorem c6_override_io_error_aborts (env : Env) (req : InfraDeploymentRequest)
    (base : String) (e : Nat)
    (hb : env.render template_source_dir MAIN_CONFIG_TEMPLATE_NAME
      (jinja_context req) = .ok base)
    (hio : env.readFile (source_size_vars_path (py_lower req.type_value)) =
      .ioError e) :
    (generate_config env req).1 =
      { result := .error (.overrideReadError e),
        reads := [source_size_vars_path (py_lower req.type_value)],
        writeAttempts := [] } := by
  unfold generate_config
  rw [hb, hio]

/-- C6 witness: a concrete environment whose override read raises I/O code 3. -/
theorem c6_override_io_error_aborts_witness :
    (generate_config
      (Env.mk (fun _ _ _ => .ok "BASE") (fun _ => .ioError 3) (fun _ _ => .ok))
      (InfraDeploymentRequest.mk "p" "r" "a" "medium" [("bap", true)])).1 =
      { result := .error (.overrideReadError 3),
        reads := [source_size_vars_path (py_lower "medium")],
        writeAttempts := [] } :=
  c6_override_io_error_aborts
    (Env.mk (fun _ _ _ => .ok "BASE") (fun _ => .ioError 3) (fun _ _ => .ok))
    (InfraDeploymentRequest.mk "p" "r" "a" "medium" [("bap", true)]) "BASE" 3 rfl rfl

/-- C8: `generate_config` never mutates the deployment request: on every
path, raising or returning, the request object at return equals the input. -/
theorem c8_request_not_mutated (env : Env) (req : InfraDeploymentRequest) :
    (generate_config env req).2 = req := by
  unfold generate_config
  cases env.render template_source_dir MAIN_CONFIG_TEMPLATE_NAME (jinja_context req) with
  | error e => rfl
  | ok base =>
      cases env.readFile (source_size_vars_path (py_lower req.type_value)) with
      | ioError e => rfl
      | fileNotFound => exact writeMerged_snd ..
      | content s => exact writeMerged_snd ..

/-- C1: on every completing call, the single written output is the rendered
base text, then the fixed delimiter, then the override text (the empty
string when the override file is absent), in exactly that order. -/
theorem c1_merged_output_shape (env : Env) (req : InfraDeploymentRequest)
    (base ov : String)
    (_hres : (generate_config env req).1.result = .ok)
    (hb : env.render template_source_dir MAIN_CONFIG_TEMPLATE_NAME
      (jinja_context req) = .ok base)
    (hov : overrideTextOf
      (env.readFile (source_size_vars_path (py_lower req.type_value))) =
      some ov) :
    (generate_config env req).1.writeAttempts =
      [(output_merged_tfvars_path,
        base ++ "\n\n# --- Size-Specific Variables ---\n" ++ ov)] := by
  unfold generate_config
  rw [hb]
  cases hrd : env.readFile (source_size_vars_path (py_lower req.type_value)) with
  | ioError e =>
      rw [hrd] at hov
      simp [overrideTextOf] at hov
  | fileNotFound =>
      rw [hrd] at hov
      simp only [overrideTextOf, Option.some.injEq] at hov
      subst hov
      exact writeMerged_writeAttempts ..
  | content s =>
      rw [hrd] at hov
      simp only [overrideTextOf, Option.some.injEq] at hov
      subst hov
      exact writeMerged_writeAttempts ..

/-- C1 witness: with every collaborator succeeding, the one write is
base ++ delimiter ++ override. -/
theorem c1_merged_output_shape_witness :
    (generate_config envAllOk reqSample).1.writeAttempts =
      [(output_merged_tfvars_path,
        "BASE" ++ "\n\n# --- Size-Specific Variables ---\n" ++ "OVR")] :=
  c1_merged_output_shape envAllOk reqSample "BASE" "OVR" rfl rfl rfl

/-- C2: the override file read is the one the size-tier table maps the
lower-cased tier string to, with the "small" entry's filename for any
string whose lower-casing is none of the three keys; and in that fallback
case the call behaves exactly as it does for the tier "small" (no distinct
error). -/
theorem c2_size_tier_resolution (env : Env) (req : InfraDeploymentRequest)
    (base : String)
    (hb : env.render template_source_dir MAIN_CONFIG_TEMPLATE_NAME
      (jinja_context req) = .ok base) :
    (generate_config env req).1.reads =
      [osPathJoin template_source_dir
        (if py_lower req.type_value = "small" then "small_vars.tfvars"
         else if py_lower req.type_value = "medium" then "medium_vars.tfvars"
         else if py_lower req.type_value = "large" then "large_vars.tfvars"
         else "small_vars.tfvars")]
    ∧ (py_lower req.type_value ≠ "small" →
       py_lower req.type_value ≠ "medium" →
       py_lower req.type_value ≠ "large" →
       (generate_config env req).1 =
         (generate_config env { req with type_value := "small" }).1) := by
  have hsvp : source_size_vars_path (py_lower req.type_value) =
      osPathJoin template_source_dir
        (if py_lower req.type_value = "small" then "small_vars.tfvars"
         else if py_lower req.type_value = "medium" then "medium_vars.tfvars"
         else if py_lower req.type_value = "large" then "large_vars.tfvars"
         else "small_vars.tfvars") := by
    unfold source_size_vars_path
    rw [sizeFilename_cases]
  constructor
  · unfold generate_config
    rw [hb, hsvp]
    cases env.readFile
        (osPathJoin template_source_dir
          (if py_lower req.type_value = "small" then "small_vars.tfvars"
           else if py_lower req.type_value = "medium" then "medium_vars.tfvars"
           else if py_lower req.type_value = "large" then "large_vars.tfvars"
           else "small_vars.tfvars")) with
    | ioError e => rfl
    | fileNotFound => exact writeMerged_reads ..
    | content s => exact writeMerged_reads ..
  · intro hn1 hn2 hn3
    have hsmall : py_lower "small" = "small" := by decide
    refine generate_config_fst_congr env req _ rfl ?_
    show source_size_vars_path (py_lower req.type_value) =
      source_size_vars_path (py_lower "small")
    unfold source_size_vars_path
    rw [sizeFilename_cases, sizeFilename_cases, hsmall]
    simp [hn1, hn2, hn3]

/-- C2 witness: the tier "XL" lower-cases to "xl", outside the table, and
the call behaves exactly as for the tier "small". -/
theorem c2_size_tier_resolution_witness :
    (generate_config envAllOk reqUnknownTier).1 =
      (generate_config envAllOk { reqUnknownTier with type_value := "small" }).1 :=
  (c2_size_tier_resolution envAllOk reqUnknownTier "BASE" rfl).2
    (by decide) (by decide) (by decide)

/-- C5: when the override file is absent (read raises file-not-found) and
the remaining collaborators succeed, the call completes successfully and
the written output's tail after the delimiter is the empty string. -/
theorem c5_missing_override_empty_tail (env : Env) (req : InfraDeploymentRequest)
    (base : String)
    (hb : env.render template_source_dir MAIN_CONFIG_TEMPLATE_NAME
      (jinja_context req) = .ok base)
    (hnf : env.readFile (source_size_vars_path (py_lower req.type_value)) =
      .fileNotFound)
    (hw : env.writeFile output_merged_tfvars_path
      (base ++ "\n\n# --- Size-Specific Variables ---\n" ++ "") = .ok) :
    (generate_config env req).1.result = .ok
    ∧ (generate_config env req).1.writeAttempts =
      [(output_merged_tfvars_path,
        base ++ "\n\n# --- Size-Specific Variables ---\n" ++ "")] := by
  have hw' : env.writeFile output_merged_tfvars_path (merged_content base "") = .ok := hw
  unfold generate_config
  rw [hb, hnf]
  constructor
  · show (writeMerged env _ base "" req).1.result = .ok
    unfold writeMerged
    rw [hw']
  · show (writeMerged env _ base "" req).1.writeAttempts = _
    rw [writeMerged_writeAttempts]
    rfl

/-- C5 witness: a concrete environment whose override read reports
file-not-found. -/
theorem c5_missing_override_empty_tail_witness :
    (generate_config envNoOverride reqSample).1.result = .ok
    ∧ (generate_config envNoOverride reqSample).1.writeAttempts =
      [(output_merged_tfvars_path,
        "BASE" ++ "\n\n# --- Size-Specific Variables ---\n" ++ "")] :=
  c5_missing_override_empty_tail envNoOverride reqSample "BASE" rfl rfl rfl

/-- C7: a write is attempted only once both pieces were obtained (any
attempted write is of base ++ delimiter ++ override); a failing write is
re-raised as that very error; and a successful call implies every
collaborator succeeded, the missing-override case being the only suppressed
condition inside `overrideTextOf`. -/
theorem c7_write_last_no_error_swallowed (env : Env) (req : InfraDeploymentRequest) :
    ((generate_config env req).1.writeAttempts ≠ [] →
      ∃ base ov,
        env.render template_source_dir MAIN_CONFIG_TEMPLATE_NAME
          (jinja_context req) = .ok base ∧
        overrideTextOf (env.readFile
          (source_size_vars_path (py_lower req.type_value))) = some ov ∧
        (generate_config env req).1.writeAttempts =
          [(output_merged_tfvars_path, merged_content base ov)])
    ∧ (∀ base ov e,
        env.render template_source_dir MAIN_CONFIG_TEMPLATE_NAME
          (jinja_context req) = .ok base →
        overrideTextOf (env.readFile
          (source_size_vars_path (py_lower req.type_value))) = some ov →
        env.writeFile output_merged_tfvars_path (merged_content base ov) = .ioError e →
        (generate_config env req).1.result = .error (.writeError e))
    ∧ ((generate_config env req).1.result = .ok →
      ∃ base ov,
        env.render template_source_dir MAIN_CONFIG_TEMPLATE_NAME
          (jinja_context req) = .ok base ∧
        overrideTextOf (env.readFile
          (source_size_vars_path (py_lower req.type_value))) = some ov ∧
        env.writeFile output_merged_tfvars_path (merged_content base ov) = .ok) := by
  cases hr : env.render template_source_dir MAIN_CONFIG_TEMPLATE_NAME
      (jinja_context req) with
  | error e =>
      have h1 : (generate_config env req).1 =
          { result := .error (.renderError e), reads := [], writeAttempts := [] } := by
        unfold generate_config; rw [hr]
      refine ⟨fun h => ?_, fun b o e' hb _ _ => ?_, fun h => ?_⟩
      · rw [h1] at h; exact absurd rfl h
      · cases hb
      · rw [h1] at h; cases h
  | ok base =>
      cases hrd : env.readFile (source_size_vars_path (py_lower req.type_value)) with
      | ioError e =>
          have h1 : (generate_config env req).1 =
              { result := .error (.overrideReadError e),
                reads := [source_size_vars_path (py_lower req.type_value)],
                writeAttempts := [] } := by
            unfold generate_config; rw [hr, hrd]
          refine ⟨fun h => ?_, fun b o e' _ hov _ => ?_, fun h => ?_⟩
          · rw [h1] at h; exact absurd rfl h
          · simp [overrideTextOf] at hov
          · rw [h1] at h; cases h
      | fileNotFound =>
          have h1 : (generate_config env req).1 =
              (writeMerged env (source_size_vars_path (py_lower req.type_value))
                base "" req).1 := by
            unfold generate_config; rw [hr, hrd]
          refine ⟨fun _ => ?_, fun b o e hb hov hw => ?_, fun h => ?_⟩
          · exact ⟨base, "", rfl, rfl,
              by rw [h1]; exact writeMerged_writeAttempts ..⟩
          · injection hb with hb'; subst hb'
            simp only [overrideTextOf, Option.some.injEq] at hov
            subst hov
            rw [h1, writeMerged_result, hw]
          · rw [h1, writeMerged_result] at h
            cases hw : env.writeFile output_merged_tfvars_path (merged_content base "") with
            | ok => exact ⟨base, "", rfl, rfl, hw⟩
            | ioError e => rw [hw] at h; cases h
      | content s =>
          have h1 : (generate_config env req).1 =
              (writeMerged env (source_size_vars_path (py_lower req.type_value))
                base s req).1 := by
            unfold generate_config; rw [hr, hrd]
          refine ⟨fun _ => ?_, fun b o e hb hov hw => ?_, fun h => ?_⟩
          · exact ⟨base, s, rfl, rfl,
              by rw [h1]; exact writeMerged_writeAttempts ..⟩
          · injection hb with hb'; subst hb'
            simp only [overrideTextOf, Option.some.injEq] at hov
            subst hov
            rw [h1, writeMerged_result, hw]
          · rw [h1, writeMerged_result] at h
            cases hw : env.writeFile output_merged_tfvars_path (merged_content base s) with
            | ok => exact ⟨base, s, rfl, rfl, hw⟩
            | ioError e => rw [hw] at h; cases h

/-- C7 witness: when the write raises I/O code 7, the call re-raises it as
a write error. -/
theorem c7_write_last_no_error_swallowed_witness :
    (generate_config envWriteFault reqSample).1.result = .error (.writeError 7) :=
  (c7_write_last_no_error_swallowed envWriteFault reqSample).2.1
    "BASE" "OVR" 7 rfl rfl rfl

/-- C9: every attempted write of a call targets the single fixed output
path `<terraform-directory>/generated-terraform.tfvars`, and at most one
write is attempted; no other persisted state exists in the call's effect
trace. -/
theorem c9_single_fixed_output_path (env : Env) (req : InfraDeploymentRequest) :
    (∀ p c, (p, c) ∈ (generate_config env req).1.writeAttempts →
      p = output_merged_tfvars_path)
    ∧ (generate_config env req).1.writeAttempts.length ≤ 1 := by
  have h : (generate_config env req).1.writeAttempts = [] ∨
      ∃ m, (generate_config env req).1.writeAttempts =
        [(output_merged_tfvars_path, m)] := by
    cases hr : env.render template_source_dir MAIN_CONFIG_TEMPLATE_NAME
        (jinja_context req) with
    | error e => left; unfold generate_config; rw [hr]
    | ok base =>
        cases hrd : env.readFile
            (source_size_vars_path (py_lower req.type_value)) with
        | ioError e => left; unfold generate_config; rw [hr, hrd]
        | fileNotFound =>
            right
            exact ⟨merged_content base "",
              by unfold generate_config; rw [hr, hrd]; exact writeMerged_writeAttempts ..⟩
        | content s =>
            right
            exact ⟨merged_content base s,
              by unfold generate_config; rw [hr, hrd]; exact writeMerged_writeAttempts ..⟩
  rcases h with h | ⟨m, h⟩ <;> rw [h]
  · exact ⟨fun p c hc => absurd hc (by simp), by simp⟩
  · refine ⟨fun p c hc => ?_, by simp⟩
    simp only [List.mem_singleton, Prod.mk.injEq] at hc
    exact hc.1

/-- C9 witness: the one write of a concrete successful call targets the
fixed output path. -/
theorem c9_single_fixed_output_path_witness :
    (output_merged_tfvars_path, merged_content "BASE" "OVR") ∈
      (generate_config envAllOk reqSample).1.writeAttempts
    ∧ output_merged_tfvars_path = output_merged_tfvars_path :=
  ⟨by decide,
   (c9_single_fixed_output_path envAllOk reqSample).1
     output_merged_tfvars_path (merged_content "BASE" "OVR") (by decide)⟩

/-- C10: two requests that agree on every field and on the `bap`, `bpp`,
`gateway`, `registry` component lookups — so that they differ at most in
other component keys — yield the same render context and the same call
outcome (result, reads and writes). -/
theorem c10_extra_components_no_influence (env : Env)
    (r1 r2 : InfraDeploymentRequest)
    (hpid : r1.project_id = r2.project_id)
    (hreg : r1.region = r2.region)
    (happ : r1.app_name = r2.app_name)
    (htv : r1.type_value = r2.type_value)
    (hbap : dictGetD r1.components "bap" false = dictGetD r2.components "bap" false)
    (hbpp : dictGetD r1.components "bpp" false = dictGetD r2.components "bpp" false)
    (hgw : dictGetD r1.components "gateway" false =
      dictGetD r2.components "gateway" false)
    (hrg : dictGetD r1.components "registry" false =
      dictGetD r2.components "registry" false) :
    jinja_context r1 = jinja_context r2
    ∧ (generate_config env r1).1 = (generate_config env r2).1 := by
  have hctx : jinja_context r1 = jinja_context r2 := by
    simp [jinja_context, hpid, hreg, happ, hbap, hbpp, hgw, hrg]
  exact ⟨hctx, generate_config_fst_congr env r1 r2 hctx (by rw [htv])⟩

/-- C10 witness: adding an extra component key `extra` leaves the outcome
unchanged. -/
theorem c10_extra_components_no_influence_witness :
    (generate_config envAllOk
      { reqSample with components := [("bap", true), ("extra", true)] }).1 =
    (generate_config envAllOk reqSample).1 :=
  (c10_extra_components_no_influence envAllOk
    { reqSample with components := [("bap", true), ("extra", true)] } reqSample
    rfl rfl rfl rfl (by decide) (by decide) (by decide) (by decide)).2

end TfConfigGenerator
